import Mathlib

/-!
# Verification of the Amazon review scraper core (src/backend/app.py)

Shallow embedding of the extraction-and-navigation pipeline of
`src/backend/app.py`: the cascading-selector field extractors
(`extract_reviews_from_soup`, `extract_product_details`), the multi-page
review pagination loop of `extract_product_reviews`, the login monitoring
logic of `auto_login_amazon`, the rating filter and the fan-out
aggregation loop of the `search_reviews` route.

HTML documents are modelled abstractly: a parsed document (`RSoup`) maps a
CSS selector string to the list of matching container nodes, and a node
(`RNode` / `Doc`) maps a selector to the optional stripped text of its
first match (`select_one` + `get_text(strip=True)`).  Browser effects
(navigation success, the chain of documents seen by the pagination loop,
login-page observations) are inputs of the model.  Regular-expression
fragments used by the source (`(\d+\.?\d*)`, `([\d,]+)`,
`/dp/([A-Z0-9]+)`) are implemented directly on character lists.
-/

/-! ## String utilities mirroring Python primitives -/

/-- `listStartsWith pat l` : does `l` start with `pat`? (used for Python `in`). -/
def listStartsWith : List Char → List Char → Bool
  | [], _ => true
  | _ :: _, [] => false
  | a :: xs, b :: ys => a = b && listStartsWith xs ys

/-- `hasSubstr pat l` : does `pat` occur as a contiguous substring of `l`?
Python's `pat in s`. -/
def hasSubstr (pat : List Char) : List Char → Bool
  | [] => listStartsWith pat []
  | c :: rest => listStartsWith pat (c :: rest) || hasSubstr pat rest

/-- Python `needle in haystack` on strings. -/
def containsSubstr (haystack needle : String) : Bool :=
  hasSubstr needle.toList haystack.toList

/-- `any(keyword in s for keyword in pats)`. -/
def containsAny (s : String) (pats : List String) : Bool :=
  pats.any (fun p => containsSubstr s p)

/-- Python `s.lower()`, character-wise (the source only lower-cases
ASCII error text before keyword matching). -/
def toLowerStr (s : String) : String := ⟨s.data.map Char.toLower⟩

/-- Take the maximal leading run of characters satisfying `p`. -/
def takeRun (p : Char → Bool) : List Char → List Char × List Char
  | [] => ([], [])
  | c :: cs =>
    if p c then
      let (d, r) := takeRun p cs
      (c :: d, r)
    else ([], c :: cs)

/-- `re.search(r"(\d+\.?\d*)", s)`: the first decimal-number match in `s`
(digits, optional dot, trailing digits), or `none` when `s` has no digit.
Used by the rating extractors (app.py lines 722 and 1031). -/
def firstNumberL : List Char → Option String
  | [] => none
  | c :: cs =>
    if c.isDigit then
      let (d, r) := takeRun Char.isDigit (c :: cs)
      match r with
      | '.' :: r2 =>
        let (d2, _) := takeRun Char.isDigit r2
        some ⟨d ++ '.' :: d2⟩
      | _ => some ⟨d⟩
    else firstNumberL cs

/-- `re.search(r"(\d+\.?\d*)", s)` on a string. -/
def firstNumber (s : String) : Option String := firstNumberL s.toList

/-- `re.search(r"([\d,]+)", s)`: the first maximal run of digit/comma
characters in `s` (app.py line 1052, review-count extraction). -/
def firstDigitsCommasL : List Char → Option String
  | [] => none
  | c :: cs =>
    if c.isDigit || c = ',' then
      let (d, _) := takeRun (fun x => x.isDigit || x = ',') (c :: cs)
      some ⟨d⟩
    else firstDigitsCommasL cs

/-- `re.search(r"([\d,]+)", s)` on a string. -/
def firstDigitsCommas (s : String) : Option String := firstDigitsCommasL s.toList

/-- Does `r'/dp/([A-Z0-9]+)'` match at the start of `cs`?  If so, the
captured ASIN. -/
def asinAt (cs : List Char) : Option String :=
  match cs with
  | '/' :: 'd' :: 'p' :: '/' :: rest =>
    let (id0, _) := takeRun (fun c => c.isUpper || c.isDigit) rest
    if id0 = [] then none else some ⟨id0⟩
  | _ => none

/-- `re.search(r'/dp/([A-Z0-9]+)', url)` (app.py line 824): the captured
group at the first position where the whole pattern matches; like
`re.search`, a position where `/dp/` appears without a following
`[A-Z0-9]` character is skipped and the scan resumes one character
further. -/
def asinAfterDp : List Char → Option String
  | [] => none
  | c :: rest =>
    match asinAt (c :: rest) with
    | some r => some r
    | none => asinAfterDp rest

/-- Value of a digit string, `int`-style (used by `parseDecimal`). -/
def digitsVal (cs : List Char) : Nat :=
  cs.foldl (fun acc c => acc * 10 + (c.toNat - 48)) 0

/-- An exact non-negative decimal `mant / 10 ^ exp`, the value domain for
the ratings compared by the `min_rating` filter.  The source compares
Python floats parsed from short decimal strings; comparisons here are
exact rational comparisons (cross-multiplied), which agree with the
float comparisons for the rating magnitudes involved. -/
structure Dec where
  mant : Nat
  exp : Nat
deriving DecidableEq, Repr

/-- Exact comparison `a ≤ b` of two decimals (cross-multiplication). -/
def Dec.le (a b : Dec) : Bool :=
  a.mant * 10 ^ b.exp ≤ b.mant * 10 ^ a.exp

/-- The decimal zero (for the `min_rating_float <= 0` tests). -/
def Dec.zero : Dec := ⟨0, 0⟩

/-- Python `float(s)` on the strings produced by the rating extractor
(`digits`, optionally `.` and further digits), modelled as an exact
decimal.  `none` models `ValueError`. -/
def parseDecimal (s : String) : Option Dec :=
  match s.toList with
  | [] => none
  | cs =>
    let (ip, rest) := takeRun Char.isDigit cs
    if ip = [] then none
    else
      match rest with
      | [] => some ⟨digitsVal ip, 0⟩
      | '.' :: frac =>
        if frac.all Char.isDigit then
          some ⟨digitsVal ip * 10 ^ frac.length + digitsVal frac, frac.length⟩
        else none
      | _ => none

/-! ## Data model -/

/-- A **ReviewRecord** (app.py lines 767-773). -/
structure Review where
  reviewer_name : String
  rating : String
  date : String
  text : String
  helpful_votes : String
deriving DecidableEq, Repr

/-- A review container node: `select_one(sel)` followed by
`get_text(strip=True)`, `none` when no element matches. -/
structure RNode where
  sel : String → Option String

/-- A parsed page: `soup.select(sel)` returns the matching containers. -/
structure RSoup where
  select : String → List RNode

/-! ## extract_reviews_from_soup (app.py lines 664-779) -/

/-- Review-container candidate selectors (app.py lines 669-674). -/
def review_selectors : List String :=
  ["li[data-hook=\"review\"]", ".review", "[data-hook=\"review\"]",
   ".a-section.review"]

/-- Review body-text candidate selectors (app.py lines 698-703). -/
def text_selectors : List String :=
  ["[data-hook=\"review-body\"]", ".review-text-content",
   ".a-expander-content", "[data-hook=\"review-collapsed\"]"]

/-- Per-review star-rating candidate selectors (app.py lines 712-716). -/
def review_rating_selectors : List String :=
  ["[data-hook=\"review-star-rating\"] .a-icon-alt",
   ".a-icon-star .a-icon-alt", "[data-hook=\"cmps-review-star-rating\"]"]

/-- Reviewer-name candidate selectors (app.py lines 729-733). -/
def name_selectors : List String :=
  ["[data-hook=\"review-author\"]", ".a-profile-name",
   "[data-hook=\"cmps-reviewer-name\"]"]

/-- Review-date candidate selectors (app.py lines 742-746). -/
def date_selectors : List String :=
  ["[data-hook=\"review-date\"]", ".review-date",
   "[data-hook=\"cmps-review-date\"]"]

/-- Helpful-votes candidate selectors (app.py lines 755-759). -/
def helpful_selectors : List String :=
  ["[data-hook=\"helpful-vote-statement\"]", ".helpful-votes",
   "[data-hook=\"cmps-helpful-vote-statement\"]"]

/-- The text-style cascade used for review text, name, date and helpful
votes: the first selector whose element exists wins, **even when its
stripped text is empty** (the source breaks on `if el:` before looking at
the text, app.py lines 704-708 etc.). -/
def first_text (c : RNode) : List String → String
  | [] => ""
  | s :: rest =>
    match c.sel s with
    | some t => t
    | none => first_text c rest

/-- The rating cascade (app.py lines 717-725): a selector whose element
exists but whose text has no `(\d+\.?\d*)` match does **not** break the
loop; the first selector that both matches and yields a number wins. -/
def first_number_match (c : RNode) : List String → String
  | [] => ""
  | s :: rest =>
    match c.sel s with
    | some t =>
      match firstNumber t with
      | some n => n
      | none => first_number_match c rest
    | none => first_number_match c rest

/-- Build the ReviewRecord of one container (app.py lines 694-773). -/
def review_of (c : RNode) : Review :=
  { reviewer_name := first_text c name_selectors
    rating := first_number_match c review_rating_selectors
    date := first_text c date_selectors
    text := first_text c text_selectors
    helpful_votes := first_text c helpful_selectors }

/-- Container discovery (app.py lines 676-681): the first selector
returning at least one match fixes the container set for the page. -/
def select_first (soup : RSoup) : List String → List RNode
  | [] => []
  | s :: rest =>
    match soup.select s with
    | [] => select_first soup rest
    | cs => cs

/-- `extract_reviews_from_soup(soup, max_reviews=None)` (app.py lines
664-779): pick the container set, truncate to `max_reviews` when given
(lines 690-692), build a record per container and keep only records whose
body text is non-empty (line 766, `if review_text:`). -/
def extract_reviews_from_soup (soup : RSoup) (max_reviews : Option Nat) :
    List Review :=
  let containers := select_first soup review_selectors
  let cs :=
    match max_reviews with
    | some m => containers.take m
    | none => containers
  (cs.map review_of).filter (fun r => r.text != "")

/-! ## Pagination controller of extract_product_reviews (app.py 857-939) -/

/-- Next-page candidate selectors (app.py lines 892-899). -/
def next_selectors : List String :=
  ["li.a-last a", "a[aria-label=\"Next page\"]",
   "li.a-last:not(.a-disabled) a", ".a-pagination .a-last a",
   "text=Next", "[data-hook=\"pagination-bar\"] .a-last a"]

/-- One document the loop can see: its parsed content, the next-button
lookup (`some d` when the selector has `count > 0`, `d` recording whether
`a-disabled` is present on the button or its parent, app.py lines
903-909), and whether processing this page raises an exception that the
per-page handler catches (app.py lines 925-927). -/
structure PageDoc where
  soup : RSoup
  next_button : String → Option Bool
  raises : Bool

/-- Why the page loop stopped. `page_error` is the caught per-page
exception (app.py line 925, `break`); `end_of_results` is the
no-next-button break (line 921-923); `max_pages_reached` is normal loop
exhaustion. -/
inductive StopReason where
  | page_error
  | end_of_results
  | max_pages_reached
deriving DecidableEq, Repr

/-- Outcome of the page loop: accumulated reviews (`all_reviews`), the
`pages_scraped` counter (incremented only on pages yielding at least one
review, app.py lines 880-882), the number of loop iterations entered, and
the stop reason. -/
structure LoopResult where
  reviews : List Review
  pages_scraped : Nat
  visited : Nat
  reason : StopReason
deriving DecidableEq, Repr

/-- Next-button search (app.py lines 901-919): first selector with a
matching, non-disabled button is clicked (`true`); a disabled match does
not stop the scan. -/
def find_next (btn : String → Option Bool) : List String → Bool
  | [] => false
  | s :: rest =>
    match btn s with
    | some false => true
    | _ => find_next btn rest

/-- The `for page_num in range(1, max_pages + 1)` loop of
`extract_product_reviews` (app.py lines 857-927).  `docs pos` is the
document shown by the browser after `pos` next-clicks; `remaining` is the
number of loop iterations left; `acc`, `scraped`, `visited` accumulate
`all_reviews`, `pages_scraped` and the iteration count.  The next-button
search runs only when the current iteration is not the last
(`page_num < max_pages`, line 888). -/
def run_pages (docs : Nat → PageDoc) :
    Nat → Nat → List Review → Nat → Nat → LoopResult
  | _, 0, acc, scraped, visited => ⟨acc, scraped, visited, .max_pages_reached⟩
  | pos, r + 1, acc, scraped, visited =>
    let d := docs pos
    if d.raises then ⟨acc, scraped, visited + 1, .page_error⟩
    else
      let page_reviews := extract_reviews_from_soup d.soup none
      let acc2 := acc ++ page_reviews
      let scraped2 := if page_reviews.isEmpty then scraped else scraped + 1
      if r = 0 then ⟨acc2, scraped2, visited + 1, .max_pages_reached⟩
      else if find_next d.next_button next_selectors then
        run_pages docs (pos + 1) r acc2 scraped2 (visited + 1)
      else ⟨acc2, scraped2, visited + 1, .end_of_results⟩

/-- The dict returned by `extract_product_reviews`.  Keys absent on some
paths (`total_reviews_found`, `error`, `source`) are `Option`s. -/
structure ExtractionResult where
  url : String
  total_reviews_found : Option Nat
  reviews : List Review
  success : Bool
  error : Option String
  source : Option String
  pages_scraped : Nat
deriving DecidableEq, Repr

/-- The browser environment `extract_product_reviews` runs against:
whether `safe_navigate` to the product URL succeeds (app.py line 649),
the parsed product page (line 782), and the chain of documents the page
loop sees (`docs 0` is the page current when the loop starts). -/
structure Env where
  nav_ok : Bool
  product_soup : RSoup
  docs : Nat → PageDoc

/-- `extract_product_reviews(product_url, max_reviews, max_pages)`
(app.py lines 637-949), paired with the dedicated-reviews navigation
target: `some reviews_url` when the code calls `page.goto(reviews_url)`
(line 830), `none` when no such navigation is attempted.

Faithful details: `max_reviews` is accepted but used only in a log line
(line 647), so it is a value of an arbitrary type here; the page-1 early
return (lines 787-797) requires a **non-empty** product-page extraction;
on the multi-page path the product-page reviews are discarded and the
dedicated navigation is attempted unless the URL already contains
`/product-reviews/` (line 817) or has no `/dp/` ASIN (line 824); the
final dict (lines 929-936) is tagged `success: True` unconditionally,
and the navigation-failure dict (lines 651-657) has no
`total_reviews_found`/`source` keys. -/
def extract_product_reviews {α : Type} (env : Env) (product_url : String)
    (max_reviews : α) (max_pages : Nat) : ExtractionResult × Option String :=
  if env.nav_ok = false then
    ({ url := product_url, total_reviews_found := none, reviews := [],
       success := false, error := some "Failed to load product page",
       source := none, pages_scraped := 0 }, none)
  else
    let product_page_reviews := extract_reviews_from_soup env.product_soup none
    if max_pages = 1 ∧ product_page_reviews ≠ [] then
      ({ url := product_url,
         total_reviews_found := some product_page_reviews.length,
         reviews := product_page_reviews, success := true, error := none,
         source := some "product_page", pages_scraped := 1 }, none)
    else
      let reviews_nav : Option String :=
        if containsSubstr product_url "/product-reviews/" then none
        else
          match asinAfterDp product_url.toList with
          | some pid => some ("https://www.amazon.com/product-reviews/" ++ pid)
          | none => none
      let lr := run_pages env.docs 0 max_pages [] 0 0
      ({ url := product_url, total_reviews_found := some lr.reviews.length,
         reviews := lr.reviews, success := true, error := none,
         source := some "reviews_page", pages_scraped := lr.pages_scraped },
       reviews_nav)

/-! ## extract_product_details (app.py lines 961-1082) -/

/-- A product detail page: `soup.select_one(sel)` + `get_text(strip=True)`. -/
structure Doc where
  sel : String → Option String

/-- Title candidate selectors (app.py lines 977-982). -/
def title_selectors : List String :=
  ["#productTitle", "#title", ".a-size-large.product-title-word-break",
   "h1.a-size-large"]

/-- Price candidate selectors (app.py lines 991-1004). -/
def price_selectors : List String :=
  [".a-price .a-offscreen", "#priceblock_ourprice", "#priceblock_dealprice",
   "#priceblock_saleprice", ".a-price-whole", ".a-color-price",
   "#corePrice_feature_div .a-price .a-offscreen",
   "#corePriceDisplay_desktop_feature_div .a-price-whole",
   "#corePriceDisplay_desktop_feature_div .a-price-fraction",
   ".a-price .a-offscreen:first-child", "#snsPrice .a-price .a-offscreen",
   ".apexPriceToPay .a-offscreen"]

/-- Product-rating candidate selectors (app.py lines 1016-1023). -/
def rating_selectors : List String :=
  [".a-icon-star-small .a-icon-alt", ".a-icon-star .a-icon-alt",
   "#acrPopover .a-icon-alt", ".review-rating",
   "#averageCustomerReviews .a-icon-alt",
   ".a-declarative[data-action='acrStarsLink'] .a-icon-alt",
   "#acrPopover [data-cy='reviews-ratings-date']"]

/-- Review-count candidate selectors (the local `review_selectors` of
`extract_product_details`, app.py lines 1038-1045). -/
def review_count_selectors : List String :=
  ["#acrCustomerReviewText", ".a-size-base", "a[href*='customerReviews']",
   "#acrCustomerReviewLink", "[data-cy='reviews-ratings-count']",
   ".a-link-emphasis"]

/-- Title cascade (app.py lines 983-987): breaks on the **first matching
element**, even when its stripped text is empty. -/
def title_loop (d : Doc) : List String → String
  | [] => ""
  | s :: rest =>
    match d.sel s with
    | some t => t
    | none => title_loop d rest

/-- Price cascade (app.py lines 1005-1012): a match is accepted only when
its text is non-empty and contains `$` or `CDN$`; otherwise the scan
continues with the next selector. -/
def price_loop (d : Doc) : List String → String
  | [] => ""
  | s :: rest =>
    match d.sel s with
    | some t =>
      if t != "" && (containsSubstr t "$" || containsSubstr t "CDN$") then t
      else price_loop d rest
    | none => price_loop d rest

/-- Product-rating cascade (app.py lines 1025-1034): a match is accepted
only when `(\d+\.?\d*)` finds a number in its text. -/
def rating_loop (d : Doc) : List String → String
  | [] => ""
  | s :: rest =>
    match d.sel s with
    | some t =>
      match firstNumber t with
      | some n => n
      | none => rating_loop d rest
    | none => rating_loop d rest

/-- Review-count cascade (app.py lines 1046-1055): a match is accepted
only when `([\d,]+)` finds a digit/comma run in its text. -/
def review_count_loop (d : Doc) : List String → String
  | [] => ""
  | s :: rest =>
    match d.sel s with
    | some t =>
      match firstDigitsCommas t with
      | some n => n
      | none => review_count_loop d rest
    | none => review_count_loop d rest

/-- The dict built by `extract_product_details` (app.py lines 1057-1064). -/
structure ProductDetails where
  url : String
  title : String
  price : String
  rating : String
  review_count : String
  success : Bool
deriving DecidableEq, Repr

/-- `extract_product_details(product_url)` on an already-loaded page
(app.py lines 975-1064); the success path tags `success: True`. -/
def extract_product_details (d : Doc) (product_url : String) : ProductDetails :=
  { url := product_url
    title := title_loop d title_selectors
    price := price_loop d price_selectors
    rating := rating_loop d rating_selectors
    review_count := review_count_loop d review_count_selectors
    success := true }

/-- The spec's ordered-candidate resolver (spec.md section 4.4 and section
8 first bullet), written from the spec's words for comparison with the
code's cascades: return the value of the first candidate whose element
matches and whose text resolves (validated, transformed) to `some` value;
the empty string when the whole cascade misses. -/
def spec_firstResolved (d : Doc) (resolve : String → Option String) :
    List String → String
  | [] => ""
  | s :: rest =>
    match d.sel s with
    | some t =>
      match resolve t with
      | some v => v
      | none => spec_firstResolved d resolve rest
    | none => spec_firstResolved d resolve rest

/-- The spec's validator for the price field: non-empty and containing a
currency marker. -/
def priceResolve (t : String) : Option String :=
  if t != "" && (containsSubstr t "$" || containsSubstr t "CDN$") then some t
  else none

/-! ## auto_login_amazon monitoring (app.py lines 175-567) -/

/-- Outcome of the login-completion monitoring loop, one constructor per
distinct exit of the source (app.py lines 437-535): success indicator
seen (line 455 or 527), CAPTCHA/verification error text (line 486), 2FA
error text or 2FA page indicator (lines 489 and 513), invalid-credential
error text (line 492), or polling budget exhausted (`timeout`). -/
inductive MonitorOutcome where
  | success
  | blocked_captcha
  | blocked_twofa
  | blocked_invalid
  | timeout
deriving DecidableEq, Repr

/-- What one polling iteration observes on the page: a success indicator
(`Hello ...` account text, lines 440-456), the first non-empty error text
(lines 464-481), a 2FA page indicator (lines 500-513), and the
URL-changed signed-in check (lines 517-530). -/
structure LoginObs where
  success_sig : Bool
  error_text : Option String
  twofa_page : Bool
  url_login : Bool

/-- Error-text classification (app.py lines 483-492): keyword lists are
checked on the lower-cased text, CAPTCHA first, then 2FA, then invalid
credentials; unrecognized error text does not end the monitoring. -/
def classify_error (t : String) : Option MonitorOutcome :=
  let l := toLowerStr t
  if containsAny l ["captcha", "verify", "robot", "automated"] then
    some .blocked_captcha
  else if containsAny l ["2fa", "two-factor", "verification code", "sms", "phone"] then
    some .blocked_twofa
  else if containsAny l ["incorrect", "wrong", "invalid", "failed"] then
    some .blocked_invalid
  else none

/-- One monitoring iteration (app.py lines 438-530), in source order:
success indicators, then error text, then 2FA page indicators, then the
URL check; `none` means keep polling. -/
def monitor_step (o : LoginObs) : Option MonitorOutcome :=
  if o.success_sig then some .success
  else
    match (match o.error_text with
           | some t => classify_error t
           | none => none) with
    | some b => some b
    | none =>
      if o.twofa_page then some .blocked_twofa
      else if o.url_login then some .success
      else none

/-- The bounded polling loop, `for i in range(30)` (app.py line 437):
`obs i` is what iteration `i` observes. -/
def monitor_loop (obs : Nat → LoginObs) : Nat → Nat → MonitorOutcome
  | _, 0 => .timeout
  | i, fuel + 1 =>
    match monitor_step (obs i) with
    | some r => r
    | none => monitor_loop obs (i + 1) fuel

/-- The environment `auto_login_amazon` runs against: the entry-guard
configuration (lines 179-185), the already-logged-in fast check (lines
191-199), whether each slow-path stage succeeds (sign-in click, lines
229-308; email fill, lines 331-345; password fill, lines 384-398; submit
click, lines 416-430), the monitoring observations, and the final
post-loop verification (lines 547-559). -/
structure LoginEnv where
  enabled : Bool
  have_creds : Bool
  already_in : Bool
  signin_clicked : Bool
  email_filled : Bool
  password_filled : Bool
  submit_clicked : Bool
  obs : Nat → LoginObs
  final_check : Bool

/-- `auto_login_amazon(page)` (app.py lines 175-567).  The function's only
return channel is a single boolean; the second component counts password
submissions (sign-in button clicks after the password fill), which the
source performs at most once — the monitoring loop never refills or
resubmits.  Every blocked exit returns the same `False` as a generic
failure. -/
def auto_login_amazon (e : LoginEnv) : Bool × Nat :=
  if e.enabled = false then (false, 0)
  else if e.have_creds = false then (false, 0)
  else if e.already_in then (true, 0)
  else if e.signin_clicked = false then (false, 0)
  else if e.email_filled = false then (false, 0)
  else if e.password_filled = false then (false, 0)
  else if e.submit_clicked = false then (false, 0)
  else
    match monitor_loop e.obs 0 30 with
    | .success => (true, 1)
    | .timeout => (if e.final_check then true else false, 1)
    | _ => (false, 1)

/-! ## search_reviews: rating filter and fan-out aggregation
(app.py lines 1779-1876) -/

/-- A basic product target found on the search page (title + url,
app.py lines 1754-1757). -/
structure BasicProduct where
  title : String
  url : String
deriving DecidableEq, Repr

/-- Outcome of one `extract_product_details` task under
`asyncio.gather(..., return_exceptions=True)` (app.py line 1777):
either a raised exception (captured as its message) or a details dict. -/
inductive DetailOutcome where
  | exn : String → DetailOutcome
  | ok : ProductDetails → DetailOutcome
deriving DecidableEq, Repr

/-- Whether one candidate passes the rating filter (app.py lines
1783-1808): an exception or an absent/unparsable rating is kept only when
`min_rating_float <= 0`; a parsed rating is kept when
`rating_float >= min_rating_float`. -/
def rating_filter_keep (mr : Dec) : DetailOutcome → Bool
  | .exn _ => Dec.le mr Dec.zero
  | .ok d =>
    if d.rating != "" then
      match parseDecimal d.rating with
      | some rv => Dec.le mr rv
      | none => Dec.le mr Dec.zero
    else Dec.le mr Dec.zero

/-- The rating-filter stage (app.py lines 1779-1811): with no
`min_rating` every basic product is kept; otherwise the detail outcomes
are walked in step with `basic_products` and the passing basic products
are kept in order. -/
def filter_products (mrf : Option Dec) (basics : List BasicProduct)
    (details : List DetailOutcome) : List BasicProduct :=
  match mrf with
  | none => basics
  | some mr =>
    ((basics.zip details).filter (fun p => rating_filter_keep mr p.2)).map
      Prod.fst

/-- Outcome of one `extract_product_reviews` task under
`asyncio.gather(..., return_exceptions=True)` (app.py line 1828). -/
inductive ReviewOutcome where
  | exn : String → ReviewOutcome
  | res : ExtractionResult → ReviewOutcome
deriving DecidableEq, Repr

/-- The per-product record built by the aggregation loop (app.py lines
1838-1855).  On the exception path (lines 1838-1845) the record carries
the exception message as `error`; on the result path (lines 1849-1855)
the source copies title, url, `total_reviews_found` (default 0 when the
key is absent), the reviews and the success flag — and no `error` key. -/
structure ProductRecord where
  title : String
  url : String
  reviews_count : Nat
  reviews : List Review
  success : Bool
  error : Option String
deriving DecidableEq, Repr

/-- Convert one (basic product, task outcome) pair to its record
(app.py lines 1834-1855). -/
def record_of : BasicProduct × ReviewOutcome → ProductRecord
  | (bp, .exn msg) =>
    { title := bp.title, url := bp.url, reviews_count := 0, reviews := [],
      success := false, error := some msg }
  | (bp, .res r) =>
    { title := bp.title, url := bp.url,
      reviews_count := r.total_reviews_found.getD 0, reviews := r.reviews,
      success := r.success, error := none }

/-- Contribution of one task outcome to `total_reviews` (app.py lines
1847-1848): only non-exception results add their review count. -/
def count_of : ReviewOutcome → Nat
  | .exn _ => 0
  | .res r => r.total_reviews_found.getD 0

/-- The aggregation loop of `search_reviews` (app.py lines 1831-1855):
the per-product record list in input order, and the `total_reviews`
accumulator. -/
def aggregate_reviews : List (BasicProduct × ReviewOutcome) →
    List ProductRecord × Nat
  | [] => ([], 0)
  | p :: rest =>
    (record_of p :: (aggregate_reviews rest).1,
     count_of p.2 + (aggregate_reviews rest).2)

/-! # Claims -/

/-! ## C9: the max_reviews argument has no effect -/

/-- Claim C9 (confirmed): for every product URL, page content and
max_pages value, the result of `extract_product_reviews` is identical for
any two values of the `max_reviews` argument (of any types, covering both
the route-level int clamped to 50 and the `float('inf')` passed by
`search_reviews`): the parameter is only logged, and both calls to the
inner extractor (app.py lines 784 and 878) omit the review limit. -/
theorem c9_max_reviews_no_effect {α β : Type} (env : Env) (url : String)
    (m1 : α) (m2 : β) (mp : Nat) :
    extract_product_reviews env url m1 mp
      = extract_product_reviews env url m2 mp := rfl

/-! ## C7: empty-bodied review containers are excluded -/

/-- Claim C7 (confirmed): every review in the returned list has non-empty
body text; a container whose body-text cascade resolves empty is never in
the returned list; and re-running the extraction on the same static
document yields an identical list (immediate, since the model extraction
is a pure function of the parsed document, as the source's parsing is). -/
theorem c7_empty_body_excluded (soup : RSoup) (mr : Option Nat) :
    (∀ rv, rv ∈ extract_reviews_from_soup soup mr → rv.text ≠ "") ∧
    (∀ c : RNode, first_text c text_selectors = "" →
      review_of c ∉ extract_reviews_from_soup soup mr) ∧
    extract_reviews_from_soup soup mr = extract_reviews_from_soup soup mr := by
  have hmem : ∀ rv, rv ∈ extract_reviews_from_soup soup mr → rv.text ≠ "" := by
    intro rv h
    simp only [extract_reviews_from_soup, List.mem_filter] at h
    simpa using h.2
  refine ⟨hmem, ?_, rfl⟩
  intro c hc hmemc
  exact hmem (review_of c) hmemc (by simpa [review_of] using hc)

/-- Concrete document for the C7 witness: one container whose body text
is "Great". -/
def c7node : RNode :=
  ⟨fun s => if s = "[data-hook=\"review-body\"]" then some "Great" else none⟩

/-- Concrete page for the C7 witness. -/
def c7soup : RSoup :=
  ⟨fun s => if s = "li[data-hook=\"review\"]" then [c7node] else []⟩

/-- Witness for C7 at a concrete document. -/
theorem c7_witness : (Review.mk "" "" "" "Great" "").text ≠ "" :=
  (c7_empty_body_excluded c7soup none).1 (Review.mk "" "" "" "Great" "")
    (by decide)

/-! ## C6: max_pages = 1 with reviews on the product page -/

/-- Claim C6 (confirmed): with `max_pages = 1` and a product detail page
whose extraction yields 5 reviews (non-empty body text), the result has
`total_reviews_found = 5`, the extracted reviews, `success = true`,
`source = "product_page"`, `pages_scraped = 1`, and no navigation to a
dedicated reviews view is performed (app.py lines 786-797). -/
theorem c6_page1_product_reviews (env : Env) (url : String)
    (hnav : env.nav_ok = true)
    (h5 : (extract_reviews_from_soup env.product_soup none).length = 5) :
    (extract_product_reviews env url (0 : Nat) 1).1.total_reviews_found
      = some 5 ∧
    (extract_product_reviews env url (0 : Nat) 1).1.reviews
      = extract_reviews_from_soup env.product_soup none ∧
    (extract_product_reviews env url (0 : Nat) 1).1.success = true ∧
    (extract_product_reviews env url (0 : Nat) 1).1.source
      = some "product_page" ∧
    (extract_product_reviews env url (0 : Nat) 1).1.pages_scraped = 1 ∧
    (extract_product_reviews env url (0 : Nat) 1).2 = none := by
  have hne : extract_reviews_from_soup env.product_soup none ≠ [] := by
    intro h
    rw [h] at h5
    simp at h5
  simp [extract_product_reviews, hnav, hne, h5]

/-- A product-page container with body text for the C6 witness. -/
def c6node : RNode :=
  ⟨fun s => if s = "[data-hook=\"review-body\"]" then some "Nice" else none⟩

/-- A product page holding exactly 5 review containers (C6 witness). -/
def c6soup : RSoup :=
  ⟨fun s =>
    if s = "li[data-hook=\"review\"]" then
      [c6node, c6node, c6node, c6node, c6node]
    else []⟩

/-- A blank loop document for witness environments (no reviews, no next
button, no error). -/
def c6page : PageDoc := ⟨⟨fun _ => []⟩, fun _ => none, false⟩

/-- C6 witness environment. -/
def c6env : Env := ⟨true, c6soup, fun _ => c6page⟩

/-- Witness for C6 at a concrete environment. -/
theorem c6_witness :
    (extract_product_reviews c6env "https://www.amazon.com/dp/B0C6" (0 : Nat)
        1).1.total_reviews_found = some 5 ∧
    (extract_product_reviews c6env "https://www.amazon.com/dp/B0C6" (0 : Nat)
        1).1.reviews = extract_reviews_from_soup c6env.product_soup none ∧
    (extract_product_reviews c6env "https://www.amazon.com/dp/B0C6" (0 : Nat)
        1).1.success = true ∧
    (extract_product_reviews c6env "https://www.amazon.com/dp/B0C6" (0 : Nat)
        1).1.source = some "product_page" ∧
    (extract_product_reviews c6env "https://www.amazon.com/dp/B0C6" (0 : Nat)
        1).1.pages_scraped = 1 ∧
    (extract_product_reviews c6env "https://www.amazon.com/dp/B0C6" (0 : Nat)
        1).2 = none :=
  c6_page1_product_reviews c6env "https://www.amazon.com/dp/B0C6" rfl
    (by decide)

/-! ## C10: max_pages = 1 with an empty product page falls through -/

/-- Claim C10 (confirmed): with `max_pages = 1` and a product page whose
extraction yields no reviews, the page-1 early return is skipped (its
guard needs a non-empty list, app.py line 787); the code proceeds to the
multi-page path, navigates to the dedicated reviews URL derived from the
`/dp/` ASIN (lines 824-830), and the returned result carries
`source = "reviews_page"` and `success = true` whatever the loop finds —
including zero reviews (`docs` is unconstrained here). -/
theorem c10_page1_empty_falls_through (env : Env) (url pid : String)
    (hnav : env.nav_ok = true)
    (h0 : extract_reviews_from_soup env.product_soup none = [])
    (hnr : containsSubstr url "/product-reviews/" = false)
    (hpid : asinAfterDp url.toList = some pid) :
    (extract_product_reviews env url (0 : Nat) 1).2
      = some ("https://www.amazon.com/product-reviews/" ++ pid) ∧
    (extract_product_reviews env url (0 : Nat) 1).1.source
      = some "reviews_page" ∧
    (extract_product_reviews env url (0 : Nat) 1).1.success = true ∧
    (extract_product_reviews env url (0 : Nat) 1).1.reviews
      = (run_pages env.docs 0 1 [] 0 0).reviews ∧
    (extract_product_reviews env url (0 : Nat) 1).1.total_reviews_found
      = some (run_pages env.docs 0 1 [] 0 0).reviews.length := by
  have hpid2 : asinAfterDp url.data = some pid := hpid
  simp [extract_product_reviews, hnav, h0, hnr, hpid2]

/-- C10 witness environment: empty product page, empty loop documents. -/
def c10env : Env := ⟨true, ⟨fun _ => []⟩, fun _ => ⟨⟨fun _ => []⟩, fun _ => none, false⟩⟩

/-- Witness for C10 at a concrete environment and URL. -/
theorem c10_witness :
    (extract_product_reviews c10env "https://www.amazon.com/dp/B0TEST"
        (0 : Nat) 1).2
      = some ("https://www.amazon.com/product-reviews/" ++ "B0TEST") ∧
    (extract_product_reviews c10env "https://www.amazon.com/dp/B0TEST"
        (0 : Nat) 1).1.source = some "reviews_page" ∧
    (extract_product_reviews c10env "https://www.amazon.com/dp/B0TEST"
        (0 : Nat) 1).1.success = true ∧
    (extract_product_reviews c10env "https://www.amazon.com/dp/B0TEST"
        (0 : Nat) 1).1.reviews
      = (run_pages c10env.docs 0 1 [] 0 0).reviews ∧
    (extract_product_reviews c10env "https://www.amazon.com/dp/B0TEST"
        (0 : Nat) 1).1.total_reviews_found
      = some (run_pages c10env.docs 0 1 [] 0 0).reviews.length :=
  c10_page1_empty_falls_through c10env "https://www.amazon.com/dp/B0TEST"
    "B0TEST" rfl (by decide) (by decide) (by decide)

/-! ## C8: the min_rating filter -/

/-- C8 document whose first rating selector yields "4.5 out of 5 stars". -/
def c8doc1 : Doc :=
  ⟨fun s => if s = ".a-icon-star-small .a-icon-alt"
            then some "4.5 out of 5 stars" else none⟩

/-- C8 document whose first rating selector yields "3.0 out of 5 stars". -/
def c8doc2 : Doc :=
  ⟨fun s => if s = ".a-icon-star-small .a-icon-alt"
            then some "3.0 out of 5 stars" else none⟩

/-- C8 document with no rating information at all. -/
def c8doc3 : Doc := ⟨fun _ => none⟩

/-- C8 basic product 1. -/
def c8b1 : BasicProduct := ⟨"Alpha", "https://www.amazon.com/dp/A1"⟩

/-- C8 basic product 2. -/
def c8b2 : BasicProduct := ⟨"Beta", "https://www.amazon.com/dp/A2"⟩

/-- C8 basic product 3. -/
def c8b3 : BasicProduct := ⟨"Gamma", "https://www.amazon.com/dp/A3"⟩

/-- Claim C8 (confirmed): with a `min_rating` filter of 4.0 and three
candidates whose extracted ratings are "4.5", "3.0" and absent, exactly
the 4.5-rated product passes (app.py lines 1779-1811); and in general a
candidate with an absent rating is excluded whenever the configured
minimum is strictly positive (the `min_rating_float <= 0` inclusion
branch at line 1807 cannot fire). -/
theorem c8_min_rating_filter :
    (extract_product_details c8doc1 "ua").rating = "4.5" ∧
    (extract_product_details c8doc2 "ub").rating = "3.0" ∧
    (extract_product_details c8doc3 "uc").rating = "" ∧
    filter_products (some ⟨40, 1⟩) [c8b1, c8b2, c8b3]
      [DetailOutcome.ok (extract_product_details c8doc1 "ua"),
       DetailOutcome.ok (extract_product_details c8doc2 "ub"),
       DetailOutcome.ok (extract_product_details c8doc3 "uc")] = [c8b1] ∧
    (∀ (mr : Dec) (d : ProductDetails), Dec.le mr Dec.zero = false →
      d.rating = "" →
      rating_filter_keep mr (DetailOutcome.ok d) = false) := by
  refine ⟨by decide, by decide, by decide, by decide, ?_⟩
  intro mr d h1 h2
  simp [rating_filter_keep, h2, h1]

/-- Witness for C8's universally quantified part at a concrete strictly
positive minimum and concrete (rating-free) product details. -/
theorem c8_witness :
    rating_filter_keep ⟨1, 0⟩
      (DetailOutcome.ok (extract_product_details c8doc3 "uc")) = false :=
  c8_min_rating_filter.2.2.2.2 ⟨1, 0⟩ (extract_product_details c8doc3 "uc")
    (by decide) (by decide)

/-! ## C3: field cascades of extract_product_details -/

/-- The price cascade implements the spec's first-validated-candidate
resolver with the currency-marker validator. -/
theorem price_loop_eq_spec (d : Doc) (sels : List String) :
    price_loop d sels = spec_firstResolved d priceResolve sels := by
  induction sels with
  | nil => rfl
  | cons s rest ih =>
    simp only [price_loop, spec_firstResolved, priceResolve]
    cases d.sel s with
    | none => exact ih
    | some t =>
      by_cases h : (t != "" && (containsSubstr t "$" || containsSubstr t "CDN$")) = true
      · simp [h]
      · simp only [Bool.not_eq_true] at h
        simp [h, ih]

/-- The product-rating cascade implements the spec's resolver with the
decimal-number extractor as validator/transformer. -/
theorem rating_loop_eq_spec (d : Doc) (sels : List String) :
    rating_loop d sels = spec_firstResolved d (fun t => firstNumber t) sels := by
  induction sels with
  | nil => rfl
  | cons s rest ih =>
    simp only [rating_loop, spec_firstResolved]
    cases d.sel s with
    | none => exact ih
    | some t =>
      cases h : firstNumber t with
      | none => simp [h, ih]
      | some n => simp [h]

/-- The review-count cascade implements the spec's resolver with the
digit/comma extractor as validator/transformer. -/
theorem review_count_loop_eq_spec (d : Doc) (sels : List String) :
    review_count_loop d sels
      = spec_firstResolved d (fun t => firstDigitsCommas t) sels := by
  induction sels with
  | nil => rfl
  | cons s rest ih =>
    simp only [review_count_loop, spec_firstResolved]
    cases d.sel s with
    | none => exact ih
    | some t =>
      cases h : firstDigitsCommas t with
      | none => simp [h, ih]
      | some n => simp [h]

/-- The title cascade accepts the first candidate whose element exists,
with no validation at all (resolver `some`). -/
theorem title_loop_eq_first_match (d : Doc) (sels : List String) :
    title_loop d sels = spec_firstResolved d (fun t => some t) sels := by
  induction sels with
  | nil => rfl
  | cons s rest ih =>
    simp only [title_loop, spec_firstResolved]
    cases d.sel s with
    | none => exact ih
    | some t => simp

/-- Claim C3 (corrected): price, rating and review_count follow the
claimed first-validated-candidate semantics (price needs a currency
marker, rating needs a parsed decimal number, review_count needs a
digit/comma run; a candidate failing its validation is skipped, a later
candidate never overrides an earlier validated one, and the whole cascade
resolves to "" without raising when nothing validates — all inherent in
`spec_firstResolved`).  The **title** cascade, however, takes the first
candidate whose selector matches at all, even when its stripped text is
empty (app.py lines 983-987 break before inspecting the text): an
earlier empty-text match is **not** skipped. -/
theorem c3_amended (d : Doc) (url : String) :
    (extract_product_details d url).price
      = spec_firstResolved d priceResolve price_selectors ∧
    (extract_product_details d url).rating
      = spec_firstResolved d (fun t => firstNumber t) rating_selectors ∧
    (extract_product_details d url).review_count
      = spec_firstResolved d (fun t => firstDigitsCommas t)
          review_count_selectors ∧
    (extract_product_details d url).title
      = spec_firstResolved d (fun t => some t) title_selectors :=
  ⟨price_loop_eq_spec d price_selectors,
   rating_loop_eq_spec d rating_selectors,
   review_count_loop_eq_spec d review_count_selectors,
   title_loop_eq_first_match d title_selectors⟩

/-- C3 counterexample document: the first title candidate
(`#productTitle`) matches an element with empty stripped text, the second
(`#title`) a real title. -/
def c3doc : Doc :=
  ⟨fun s =>
    if s = "#productTitle" then some ""
    else if s = "#title" then some "RealTitle" else none⟩

/-- Counterexample for claim C3 as stated: the claim demands that an
earlier candidate resolving empty be skipped, so the title should be
"RealTitle"; the code keeps the empty first match. -/
theorem c3_counterexample :
    c3doc.sel "#productTitle" = some "" ∧
    c3doc.sel "#title" = some "RealTitle" ∧
    (extract_product_details c3doc "u").title = "" ∧
    (extract_product_details c3doc "u").title ≠ "RealTitle" := by decide

/-! ## C5: fan-out isolation and degraded records -/

/-- The aggregation loop decomposes over list append: each position's
record and count contribution depend only on that position's pair. -/
theorem aggregate_reviews_append (xs ys : List (BasicProduct × ReviewOutcome)) :
    (aggregate_reviews (xs ++ ys)).1
      = (aggregate_reviews xs).1 ++ (aggregate_reviews ys).1 ∧
    (aggregate_reviews (xs ++ ys)).2
      = (aggregate_reviews xs).2 + (aggregate_reviews ys).2 := by
  induction xs with
  | nil => simp [aggregate_reviews]
  | cons p rest ih =>
    simp [aggregate_reviews, ih.1, ih.2, Nat.add_assoc]

/-- Claim C5 (corrected): a product whose task raised an exception is
isolated — the records and total-review contributions of the products
before and after it in the batch are exactly what they would be on their
own (app.py line 1828 `return_exceptions=True` plus the per-index loop at
lines 1834-1855) — and it is converted into a degraded record with
`success = false`, `reviews_count = 0`, an empty review list and the
failure cause as `error` (lines 1838-1845).  A task that instead ended in
a terminal-error **result** contributes `reviews_count = 0` when its dict
has no `total_reviews_found` key, and its `success = false` flag is
copied (lines 1847-1855) — but, contrary to the claim, its `error` cause
is **not** copied into the record (no `error` key at lines 1849-1855). -/
theorem c5_amended (pre post : List (BasicProduct × ReviewOutcome))
    (bp : BasicProduct) (msg : String) (r : ExtractionResult) :
    (aggregate_reviews (pre ++ (bp, ReviewOutcome.exn msg) :: post)).1
      = (aggregate_reviews pre).1
        ++ record_of (bp, ReviewOutcome.exn msg) :: (aggregate_reviews post).1 ∧
    (aggregate_reviews (pre ++ (bp, ReviewOutcome.exn msg) :: post)).2
      = (aggregate_reviews pre).2 + (aggregate_reviews post).2 ∧
    record_of (bp, ReviewOutcome.exn msg)
      = ⟨bp.title, bp.url, 0, [], false, some msg⟩ ∧
    (record_of (bp, ReviewOutcome.res
        { r with total_reviews_found := none })).reviews_count = 0 ∧
    (record_of (bp, ReviewOutcome.res
        { r with success := false })).success = false := by
  refine ⟨?_, ?_, rfl, rfl, rfl⟩
  · rw [(aggregate_reviews_append pre ((bp, ReviewOutcome.exn msg) :: post)).1]
    simp [aggregate_reviews]
  · rw [(aggregate_reviews_append pre ((bp, ReviewOutcome.exn msg) :: post)).2]
    simp [aggregate_reviews, count_of]

/-- C5 counterexample input: the terminal-error dict returned by
`extract_product_reviews` on a navigation failure (app.py lines 651-657),
which carries an error cause. -/
def c5fail : ExtractionResult :=
  ⟨"https://www.amazon.com/dp/C5", none, [], false,
   some "Failed to load product page", none, 0⟩

/-- Counterexample for claim C5 as stated: a task that ended in a
terminal error (success=false result with an error cause) is converted
into a record whose `error` field is `none` — the failure cause is
dropped, not carried, by the aggregation loop. -/
theorem c5_counterexample :
    c5fail.success = false ∧
    c5fail.error = some "Failed to load product page" ∧
    (aggregate_reviews [(⟨"P5", "https://www.amazon.com/dp/C5"⟩,
        ReviewOutcome.res c5fail)]).1
      = [⟨"P5", "https://www.amazon.com/dp/C5", 0, [], false, none⟩] := by
  decide

/-! ## C4: blocked authentication outcomes -/

/-- Claim C4 (corrected): when the monitoring loop detects a
captcha/verification, two-factor or invalid-credentials indicator, the
procedure terminates immediately — the single password submission already
performed is never retried (the count stays 1) — but it returns the same
generic `False` as any other failure: the source has no distinct blocked
status (every blocked detection is a bare `return False`, app.py lines
486, 489, 492, 513). -/
theorem c4_amended (e : LoginEnv)
    (h1 : e.enabled = true) (h2 : e.have_creds = true)
    (h3 : e.already_in = false) (h4 : e.signin_clicked = true)
    (h5 : e.email_filled = true) (h6 : e.password_filled = true)
    (h7 : e.submit_clicked = true)
    (hb : monitor_loop e.obs 0 30 = MonitorOutcome.blocked_captcha ∨
          monitor_loop e.obs 0 30 = MonitorOutcome.blocked_twofa ∨
          monitor_loop e.obs 0 30 = MonitorOutcome.blocked_invalid) :
    auto_login_amazon e = (false, 1) := by
  simp only [auto_login_amazon, h1, h2, h3, h4, h5, h6, h7]
  rcases hb with h | h | h <;> simp [h]

/-- Login observations showing a CAPTCHA error box on every poll. -/
def c4obsCaptcha : Nat → LoginObs :=
  fun _ => ⟨false, some "Enter the characters you see: CAPTCHA required",
            false, false⟩

/-- Login observations with no signal at all (polling budget runs out). -/
def c4obsQuiet : Nat → LoginObs := fun _ => ⟨false, none, false, false⟩

/-- C4 environment blocked by CAPTCHA during monitoring. -/
def c4envCaptcha : LoginEnv :=
  ⟨true, true, false, true, true, true, true, c4obsCaptcha, false⟩

/-- C4 environment that simply never confirms login (generic failure). -/
def c4envTimeout : LoginEnv :=
  ⟨true, true, false, true, true, true, true, c4obsQuiet, false⟩

/-- Counterexample for claim C4 as stated: a CAPTCHA-blocked run and a
generic unconfirmed-login run return the **same** value `False` — the
blocked outcome is not distinct from the generic failed outcome, and no
block reason is identified in the return value. -/
theorem c4_counterexample :
    monitor_loop c4envCaptcha.obs 0 30 = MonitorOutcome.blocked_captcha ∧
    monitor_loop c4envTimeout.obs 0 30 = MonitorOutcome.timeout ∧
    auto_login_amazon c4envCaptcha = auto_login_amazon c4envTimeout ∧
    auto_login_amazon c4envCaptcha = (false, 1) := by decide

/-- Witness for C4's amended theorem at the CAPTCHA environment. -/
theorem c4_witness : auto_login_amazon c4envCaptcha = (false, 1) :=
  c4_amended c4envCaptcha rfl rfl rfl rfl rfl rfl rfl (Or.inl (by decide))

/-! ## C1: terminal errors, success flag and partial data -/

/-- Shape of the multi-page result (the branch of app.py lines 857-939):
once navigation succeeded and the page-1 early return is not taken, the
returned reviews and `pages_scraped` are exactly those of the page loop
and the result is tagged `success = true` — whatever the loop's stop
reason was. -/
theorem extract_multi_shape {α : Type} (env : Env) (url : String) (m : α)
    (mp : Nat) (hnav : env.nav_ok = true) (hmp1 : mp ≠ 1) :
    (extract_product_reviews env url m mp).1.reviews
      = (run_pages env.docs 0 mp [] 0 0).reviews ∧
    (extract_product_reviews env url m mp).1.pages_scraped
      = (run_pages env.docs 0 mp [] 0 0).pages_scraped ∧
    (extract_product_reviews env url m mp).1.success = true := by
  have hc : ¬(mp = 1 ∧ extract_reviews_from_soup env.product_soup none ≠ []) :=
    fun h => hmp1 h.1
  simp [extract_product_reviews, hnav, hc]

/-- Claim C1 (corrected): a terminal error inside the page-processing
loop (the caught per-page exception, app.py lines 925-927) preserves all
reviews collected before the error in the returned list, but the result
is tagged `success = true` (the final dict at lines 929-936 hardcodes
it) --- not `success = false` as claimed; `success = false` is returned
only when the initial navigation to the product URL fails (lines
649-657), and that path returns an **empty** reviews list. -/
theorem c1_amended (env env2 : Env) (url : String) (mp : Nat)
    (hnav : env.nav_ok = true) (hmp1 : mp ≠ 1)
    (herr : (run_pages env.docs 0 mp [] 0 0).reason = StopReason.page_error)
    (hnav2 : env2.nav_ok = false) :
    ((extract_product_reviews env url (0 : Nat) mp).1.success = true ∧
     (extract_product_reviews env url (0 : Nat) mp).1.reviews
       = (run_pages env.docs 0 mp [] 0 0).reviews) ∧
    ((extract_product_reviews env2 url (0 : Nat) mp).1.success = false ∧
     (extract_product_reviews env2 url (0 : Nat) mp).1.reviews = []) := by
  have h := extract_multi_shape env url (0 : Nat) mp hnav hmp1
  refine ⟨⟨h.2.2, h.1⟩, ?_⟩
  simp [extract_product_reviews, hnav2]

/-- C1 environment: page 1 yields one review and has an enabled next
button; page 2 raises the caught per-page exception. -/
def c1env : Env :=
  ⟨true, ⟨fun _ => []⟩,
   fun n =>
     if n = 0 then
       ⟨⟨fun s =>
           if s = "li[data-hook=\"review\"]" then
             [⟨fun s2 => if s2 = "[data-hook=\"review-body\"]"
                         then some "Page one review" else none⟩]
           else []⟩,
        fun s => if s = "li.a-last a" then some false else none, false⟩
     else ⟨⟨fun _ => []⟩, fun _ => none, true⟩⟩

/-- Counterexample for claim C1 as stated: with `max_pages = 3`, page 2's
processing raises (a terminal error during review extraction), yet the
returned result is tagged `success = true` — the claim's
`success = false` is violated while the page-1 reviews are preserved. -/
theorem c1_counterexample :
    (run_pages c1env.docs 0 3 [] 0 0).reason = StopReason.page_error ∧
    (run_pages c1env.docs 0 3 [] 0 0).reviews ≠ [] ∧
    (extract_product_reviews c1env "https://www.amazon.com/dp/C1" (0 : Nat)
        3).1.success = true ∧
    (extract_product_reviews c1env "https://www.amazon.com/dp/C1" (0 : Nat)
        3).1.reviews = (run_pages c1env.docs 0 3 [] 0 0).reviews := by decide

/-- C1 environment with failing initial navigation (for the witness). -/
def c1envFail : Env :=
  ⟨false, ⟨fun _ => []⟩, fun _ => ⟨⟨fun _ => []⟩, fun _ => none, false⟩⟩

/-- Witness for C1's amended theorem at concrete environments. -/
theorem c1_witness :
    ((extract_product_reviews c1env "https://www.amazon.com/dp/C1" (0 : Nat)
        3).1.success = true ∧
     (extract_product_reviews c1env "https://www.amazon.com/dp/C1" (0 : Nat)
        3).1.reviews = (run_pages c1env.docs 0 3 [] 0 0).reviews) ∧
    ((extract_product_reviews c1envFail "https://www.amazon.com/dp/C1"
        (0 : Nat) 3).1.success = false ∧
     (extract_product_reviews c1envFail "https://www.amazon.com/dp/C1"
        (0 : Nat) 3).1.reviews = []) :=
  c1_amended c1env c1envFail "https://www.amazon.com/dp/C1" 3 rfl
    (by decide) (by decide) rfl

/-! ## C2: pagination bound and end-of-results counting -/

/-- The page loop enters at most `remaining` iterations. -/
theorem run_pages_visited_le (docs : Nat → PageDoc) :
    ∀ (r pos : Nat) (acc : List Review) (s v : Nat),
      (run_pages docs pos r acc s v).visited ≤ v + r := by
  intro r
  induction r with
  | zero =>
    intro pos acc s v
    simp [run_pages]
  | succ n ih =>
    intro pos acc s v
    by_cases h1 : (docs pos).raises = true
    · simp [run_pages, h1]
    · by_cases h2 : n = 0
      · subst h2
        simp [run_pages, h1]
      · by_cases h3 : find_next (docs pos).next_button next_selectors = true
        · simp only [run_pages, h1, h2, h3, Bool.false_eq_true, if_false,
            if_true, ite_false, ite_true]
          exact (ih (pos + 1) _ _ _).trans (by omega)
        · simp [run_pages, h1, h2, h3]

/-- On a chain of `K + 1` documents that all extract at least one review,
never raise, and whose next-button search succeeds exactly up to the
second-to-last document, the loop (entered with more than `K + 1`
remaining iterations) stops with `end_of_results` after counting all
`K + 1` pages. -/
theorem run_pages_chain (docs : Nat → PageDoc) :
    ∀ (K pos r : Nat) (acc : List Review) (s v : Nat),
      K + 1 < r →
      (∀ i, i < K + 1 →
        (docs (pos + i)).raises = false ∧
        (extract_reviews_from_soup (docs (pos + i)).soup none).isEmpty
          = false ∧
        find_next (docs (pos + i)).next_button next_selectors
          = decide (i + 1 < K + 1)) →
      (run_pages docs pos r acc s v).pages_scraped = s + (K + 1) ∧
      (run_pages docs pos r acc s v).reason = StopReason.end_of_results := by
  intro K
  induction K with
  | zero =>
    intro pos r acc s v hr hch
    obtain ⟨r2, rfl⟩ : ∃ r2, r = r2 + 2 := ⟨r - 2, by omega⟩
    have h0 := hch 0 (by omega)
    rw [Nat.add_zero] at h0
    have hfn : find_next (docs pos).next_button next_selectors = false := by
      rw [h0.2.2]
      simp
    simp [run_pages, h0.1, h0.2.1, hfn]
  | succ K ih =>
    intro pos r acc s v hr hch
    obtain ⟨r2, rfl⟩ : ∃ r2, r = r2 + 1 := ⟨r - 1, by omega⟩
    have h0 := hch 0 (by omega)
    rw [Nat.add_zero] at h0
    have hfn : find_next (docs pos).next_button next_selectors = true := by
      rw [h0.2.2, decide_eq_true_eq]
      omega
    have hr2 : ¬(r2 = 0) := by omega
    have hch2 : ∀ i, i < K + 1 →
        (docs (pos + 1 + i)).raises = false ∧
        (extract_reviews_from_soup (docs (pos + 1 + i)).soup none).isEmpty
          = false ∧
        find_next (docs (pos + 1 + i)).next_button next_selectors
          = decide (i + 1 < K + 1) := by
      intro i hi
      have h := hch (i + 1) (by omega)
      have e : pos + (i + 1) = pos + 1 + i := by omega
      rw [e] at h
      refine ⟨h.1, h.2.1, ?_⟩
      rw [h.2.2, decide_eq_decide]
      omega
    have hmain := ih (pos + 1) r2
      (acc ++ extract_reviews_from_soup (docs pos).soup none)
      (s + 1) (v + 1) (by omega) hch2
    simp only [run_pages, h0.1, h0.2.1, hfn, hr2, Bool.false_eq_true,
      if_false, if_true, if_neg, if_pos]
    exact ⟨by rw [hmain.1]; omega, hmain.2⟩

/-- Claim C2 (corrected): the pagination loop never enters more than
`max_pages` iterations (stated for an arbitrary environment `env2` and
cap `mp2`); and for a document chain of `K < max_pages` pages with no
enabled next control on the last page the loop terminates with the normal
`end_of_results` transition — but `pages_scraped` equals `K` only when
**every page of the chain yields at least one review**, because the
source increments `pages_scraped` only for pages with a non-empty
extraction (app.py lines 880-882); a chain page with no extractable
reviews is visited but not counted. -/
theorem c2_amended (env env2 : Env) (url : String) (mp mp2 K : Nat)
    (hnav : env.nav_ok = true) (hK : 0 < K) (hKm : K < mp)
    (hch : ∀ i, i < K →
      (env.docs i).raises = false ∧
      (extract_reviews_from_soup (env.docs i).soup none).isEmpty = false ∧
      find_next (env.docs i).next_button next_selectors
        = decide (i + 1 < K)) :
    (run_pages env2.docs 0 mp2 [] 0 0).visited ≤ mp2 ∧
    (extract_product_reviews env url (0 : Nat) mp).1.pages_scraped = K ∧
    (run_pages env.docs 0 mp [] 0 0).reason
      = StopReason.end_of_results := by
  obtain ⟨K2, rfl⟩ : ∃ K2, K = K2 + 1 := ⟨K - 1, by omega⟩
  have hch0 : ∀ i, i < K2 + 1 →
      (env.docs (0 + i)).raises = false ∧
      (extract_reviews_from_soup (env.docs (0 + i)).soup none).isEmpty
        = false ∧
      find_next (env.docs (0 + i)).next_button next_selectors
        = decide (i + 1 < K2 + 1) := by
    intro i hi
    rw [Nat.zero_add]
    exact hch i hi
  have hmain := run_pages_chain env.docs K2 0 mp [] 0 0 (by omega) hch0
  have hshape := extract_multi_shape env url (0 : Nat) mp hnav (by omega)
  refine ⟨?_, ?_, hmain.2⟩
  · simpa using run_pages_visited_le env2.docs mp2 0 [] 0 0
  · rw [hshape.2.1, hmain.1]
    omega

/-- C2 counterexample environment: a single loop page with no reviews and
no next button — a document chain of length `K = 1` with no enabled next
control on its (only) page. -/
def c2env : Env :=
  ⟨true, ⟨fun _ => []⟩, fun _ => ⟨⟨fun _ => []⟩, fun _ => none, false⟩⟩

/-- Counterexample for claim C2 as stated: with `max_pages = 2` the chain
has `K = 1 < max_pages` pages (the loop enters exactly one iteration),
the last (only) page has no enabled next control, and the loop stops with
`end_of_results` — but `pages_scraped` is 0, not `K = 1`, because the
page yielded no reviews. -/
theorem c2_counterexample :
    (run_pages c2env.docs 0 2 [] 0 0).reason = StopReason.end_of_results ∧
    (run_pages c2env.docs 0 2 [] 0 0).visited = 1 ∧
    (extract_product_reviews c2env "https://www.amazon.com/dp/C2" (0 : Nat)
        2).1.pages_scraped = 0 ∧
    (extract_product_reviews c2env "https://www.amazon.com/dp/C2" (0 : Nat)
        2).1.pages_scraped ≠ 1 := by decide

/-- C2 witness environment: every loop page yields a review; the (only)
chain page has no next button. -/
def c2wenv : Env :=
  ⟨true, ⟨fun _ => []⟩,
   fun _ =>
     ⟨⟨fun s =>
         if s = "li[data-hook=\"review\"]" then
           [⟨fun s2 => if s2 = "[data-hook=\"review-body\"]"
                       then some "Chain page review" else none⟩]
         else []⟩,
      fun _ => none, false⟩⟩

/-- Witness for C2's amended theorem at a concrete one-page chain with
`max_pages = 2`. -/
theorem c2_witness :
    (run_pages c2wenv.docs 0 2 [] 0 0).visited ≤ 2 ∧
    (extract_product_reviews c2wenv "https://www.amazon.com/dp/C2W"
        (0 : Nat) 2).1.pages_scraped = 1 ∧
    (run_pages c2wenv.docs 0 2 [] 0 0).reason
      = StopReason.end_of_results :=
  c2_amended c2wenv c2wenv "https://www.amazon.com/dp/C2W" 2 2 1 rfl
    (by decide) (by decide) (by decide)
